import Mathlib

/-!
Verification of the trace-to-graph conversion core of the repository.

Shallow embedding of:
- `nncf/torch/graph/operator_metatypes.py` (metatype hierarchy, subtype
  resolution via `determine_subtype`, registry alias declarations);
- `nncf/torch/graph/graph_builder.py` (`GraphConverter.convert`);
- the node-removal-and-reconnection graph rewrite exercised by
  `tests/common/quantization/test_passes.py` (the implementation lives in
  `nncf/quantization/passes.py`, outside the provided sources, and is
  modelled from the specification).

Python machine integers are modelled as `Nat` (ids, ports, channel counts
are non-negative and never overflow in the modelled code); fallible Python
code (assertions, list indexing) is modelled with `Except`.
-/

/-- Modelled from the spec: `ConvolutionLayerAttributes` and
`BaseLayerAttributes` live in `nncf/common/graph/layer_attributes.py`,
outside the provided sources.  The spec describes "optional structured
per-op attributes (e.g. convolution group/channel counts)"; the only
fields the provided sources consume are `groups` and `in_channels` of
`ConvolutionLayerAttributes` (`PTDepthwiseConvOperatorSubtype.matches`).
The `generic` constructor stands for every non-convolution attribute
object (the `isinstance` check in the source fails on those). -/
inductive BaseLayerAttributes where
  | convolution (in_channels out_channels groups : Nat)
  | generic
deriving DecidableEq

/-- The `functions_kwargs` argument of `matches`.  In the source the
converter passes `dynamic_graph_node.__dict__`; the only key ever read is
`DynamicGraph.IS_CALLED_INSIDE_NNCF_MODULE`, so the dictionary is modelled
as an association list from string keys to the boolean values consumed. -/
abbrev FunctionsKwargs := List (String × Bool)

/-- Modelled from the spec: the constant
`DynamicGraph.IS_CALLED_INSIDE_NNCF_MODULE` (the dynamic-graph class is
outside the provided sources); the call-context flag "this operator
invocation occurred while executing inside a stateful unit's call". -/
def IS_CALLED_INSIDE_NNCF_MODULE : String := "is_called_inside_nncf_module"

/-- The metatype classes declared in
`nncf/torch/graph/operator_metatypes.py`, one constructor per class
(`PTMaxPool1dMetatype` is declared in the source but carries no
`@PT_OPERATOR_METATYPES.register()` decorator, so it never enters the
registry).  `UnknownMetatype` is modelled from the spec: the designated
unknown/generic fallback metatype returned by registry lookup for
unregistered operator names (it lives in
`nncf/common/graph/operator_metatypes.py`, outside the provided
sources). -/
inductive PTOperatorMetatype where
  | UnknownMetatype
  | PTInputNoopMetatype
  | PTOutputNoopMetatype
  | PTNoopMetatype
  | PTDepthwiseConv1dSubtype
  | PTModuleConv1dMetatype
  | PTConv1dMetatype
  | PTDepthwiseConv2dSubtype
  | PTModuleConv2dMetatype
  | PTConv2dMetatype
  | PTDepthwiseConv3dSubtype
  | PTModuleConv3dMetatype
  | PTConv3dMetatype
  | PTModuleConvTranspose1dMetatype
  | PTConvTranspose1dMetatype
  | PTModuleConvTranspose2dMetatype
  | PTConvTranspose2dMetatype
  | PTModuleConvTranspose3dMetatype
  | PTConvTranspose3dMetatype
  | PTModuleDeformConv2dMetatype
  | PTDeformConv2dMetatype
  | PTModuleLinearMetatype
  | PTLinearMetatype
  | PTHardTanhMetatype
  | PTHardSwishMetatype
  | PTHardSigmoidMetatype
  | PTTanhMetatype
  | PTELUMetatype
  | PTPRELUMetatype
  | PTLeakyRELUMetatype
  | PTModuleLayerNormMetatype
  | PTLayerNormMetatype
  | PTModuleGroupNormMetatype
  | PTGroupNormMetatype
  | PTGELUMetatype
  | PTSILUMetatype
  | PTSigmoidMetatype
  | PTAddMetatype
  | PTSubMetatype
  | PTMulMetatype
  | PTDivMetatype
  | PTFloorDivMetatype
  | PTExpMetatype
  | PTLogMetatype
  | PTAbsMetatype
  | PTErfMetatype
  | PTMatMulMetatype
  | PTBaddBmmMetatype
  | PTMeanMetatype
  | PTRoundMetatype
  | PTDropoutMetatype
  | PTThresholdMetatype
  | PTModuleBatchNormMetatype
  | PTBatchNormMetatype
  | PTAvgPool2dMetatype
  | PTAvgPool3dMetatype
  | PTMaxPool1dMetatype
  | PTMaxPool2dMetatype
  | PTMaxPool3dMetatype
  | PTMaxUnpool1dMetatype
  | PTMaxUnpool2dMetatype
  | PTMaxUnpool3dMetatype
  | PTPadMetatype
  | PTCatMetatype
  | PTRELUMetatype
  | PTRELU6Metatype
  | PTMaxMetatype
  | PTMinMetatype
  | PTTransposeMetatype
  | PTGatherMetatype
  | PTScatterMetatype
  | PTReshapeMetatype
  | PTSqueezeMetatype
  | PTSplitMetatype
  | PTExpandMetatype
  | PTExpandAsMetatype
  | PTModuleEmbeddingMetatype
  | PTEmbeddingMetatype
  | PTModuleEmbeddingBagMetatype
  | PTEmbeddingBagMetatype
  | PTSoftmaxMetatype
  | PTLessMetatype
  | PTLessEqualMetatype
  | PTGreaterMetatype
  | PTGreaterEqualMetatype
  | PTModMetatype
  | PTEqualsMetatype
  | PTNotEqualMetatype
  | PTLogicalOrMetatype
  | PTLogicalXorMetatype
  | PTLogicalAndMetatype
  | PTLogicalNotMetatype
  | PTPowerMetatype
  | PTSqrtMetatype
  | PTInterpolateMetatype
  | PTRepeatMetatype
  | PTPixelShuffleMetatype
  | PTSumMetatype
  | PTReduceL2
deriving DecidableEq

/-- The `subtypes` class attribute of each metatype class
(`subtypes = [...]` declarations in the source; every class that does not
declare one inherits the empty default from `PTOperatorMetatype`).
`get_subtypes` returns a copy of that list. -/
def PTOperatorMetatype.get_subtypes : PTOperatorMetatype → List PTOperatorMetatype
  | .PTModuleConv1dMetatype => [.PTDepthwiseConv1dSubtype]
  | .PTConv1dMetatype => [.PTModuleConv1dMetatype]
  | .PTModuleConv2dMetatype => [.PTDepthwiseConv2dSubtype]
  | .PTConv2dMetatype => [.PTModuleConv2dMetatype]
  | .PTModuleConv3dMetatype => [.PTDepthwiseConv3dSubtype]
  | .PTConv3dMetatype => [.PTModuleConv3dMetatype]
  | .PTConvTranspose1dMetatype => [.PTModuleConvTranspose1dMetatype]
  | .PTConvTranspose2dMetatype => [.PTModuleConvTranspose2dMetatype]
  | .PTConvTranspose3dMetatype => [.PTModuleConvTranspose3dMetatype]
  | .PTDeformConv2dMetatype => [.PTModuleDeformConv2dMetatype]
  | .PTLinearMetatype => [.PTModuleLinearMetatype]
  | .PTLayerNormMetatype => [.PTModuleLayerNormMetatype]
  | .PTGroupNormMetatype => [.PTModuleGroupNormMetatype]
  | .PTBatchNormMetatype => [.PTModuleBatchNormMetatype]
  | .PTEmbeddingMetatype => [.PTModuleEmbeddingMetatype]
  | .PTEmbeddingBagMetatype => [.PTModuleEmbeddingBagMetatype]
  | _ => []

/-- `PTModuleOperatorSubtype.matches`: true iff the kwargs dictionary is
present, contains the `IS_CALLED_INSIDE_NNCF_MODULE` key, and that key's
value is true. -/
def PTModuleOperatorSubtype.matches' (functions_kwargs : Option FunctionsKwargs) : Bool :=
  match functions_kwargs with
  | none => false
  | some d =>
    match d.lookup IS_CALLED_INSIDE_NNCF_MODULE with
    | none => false
    | some v => v

/-- `PTDepthwiseConvOperatorSubtype.matches`: true iff the layer
attributes are convolution attributes with
`groups == in_channels and in_channels > 1`. -/
def PTDepthwiseConvOperatorSubtype.matches' (layer_attributes : Option BaseLayerAttributes) : Bool :=
  match layer_attributes with
  | some (.convolution in_channels _ groups) => groups == in_channels && decide (1 < in_channels)
  | _ => false

/-- Dispatch of the `matches` classmethod.  The `PTModule...` classes
inherit `PTModuleOperatorSubtype.matches`; the `PTDepthwiseConv...Subtype`
classes inherit `PTDepthwiseConvOperatorSubtype.matches`.  For every other
class the base `PTOperatorSubtype.matches` raises `NotImplementedError`
and is never invoked by `determine_subtype` (those classes appear in no
`subtypes` list); it is modelled as `false`.  The unused `function_args`
parameter (always `None` at every call site in the sources) is omitted. -/
def PTOperatorMetatype.matches' (m : PTOperatorMetatype)
    (layer_attributes : Option BaseLayerAttributes)
    (functions_kwargs : Option FunctionsKwargs) : Bool :=
  match m with
  | .PTModuleConv1dMetatype | .PTModuleConv2dMetatype | .PTModuleConv3dMetatype
  | .PTModuleConvTranspose1dMetatype | .PTModuleConvTranspose2dMetatype
  | .PTModuleConvTranspose3dMetatype | .PTModuleDeformConv2dMetatype
  | .PTModuleLinearMetatype | .PTModuleLayerNormMetatype | .PTModuleGroupNormMetatype
  | .PTModuleBatchNormMetatype | .PTModuleEmbeddingMetatype
  | .PTModuleEmbeddingBagMetatype =>
    PTModuleOperatorSubtype.matches' functions_kwargs
  | .PTDepthwiseConv1dSubtype | .PTDepthwiseConv2dSubtype | .PTDepthwiseConv3dSubtype =>
    PTDepthwiseConvOperatorSubtype.matches' layer_attributes
  | _ => false

/-- Depth of the subtype tree below a metatype class; used only as a
termination measure for the recursion in `determine_subtype` (the Python
recursion terminates because the class `subtypes` declarations form a
finite tree). -/
def PTOperatorMetatype.rank : PTOperatorMetatype → Nat
  | .PTConv1dMetatype | .PTConv2dMetatype | .PTConv3dMetatype => 2
  | .PTModuleConv1dMetatype | .PTModuleConv2dMetatype | .PTModuleConv3dMetatype => 1
  | .PTConvTranspose1dMetatype | .PTConvTranspose2dMetatype | .PTConvTranspose3dMetatype => 1
  | .PTDeformConv2dMetatype | .PTLinearMetatype | .PTLayerNormMetatype => 1
  | .PTGroupNormMetatype | .PTBatchNormMetatype | .PTEmbeddingMetatype
  | .PTEmbeddingBagMetatype => 1
  | _ => 0

/-- A metatype universe with subtype declarations and match predicates:
the data over which the classmethod `PTOperatorMetatype.determine_subtype`
operates (`cls.get_subtypes()` / `subtype.matches(...)` dispatch).  The
classmethod is inherited by every metatype class, including synthetic
registries constructed in tests, so the algorithm is stated over any such
universe; `rank_lt` witnesses that the declared subtype graph is a finite
tree (which the Python recursion presumes). -/
structure SubtypeHierarchy (α : Type) where
  subtypes : α → List α
  matches' : α → Option BaseLayerAttributes → Option FunctionsKwargs → Bool
  rank : α → Nat
  rank_lt : ∀ m s, s ∈ subtypes m → rank s < rank m

/-- The assertion message of `PTOperatorMetatype.determine_subtype`. -/
def multipleSubtypesMsg : String :=
  "Multiple subtypes match operator call - cannot determine single subtype."

/-- `PTOperatorMetatype.determine_subtype`: collect the direct subtypes
whose match predicate fires, assert that at most one fired, return `none`
on zero matches, and otherwise recurse into the single match, preferring
the deepest non-null result.  The failed assertion is modelled as
`Except.error`. -/
def SubtypeHierarchy.determine_subtype {α : Type} (H : SubtypeHierarchy α) (m : α)
    (layer_attributes : Option BaseLayerAttributes)
    (functions_kwargs : Option FunctionsKwargs) : Except String (Option α) :=
  if ((H.subtypes m).filter (fun s => H.matches' s layer_attributes functions_kwargs)).length ≤ 1 then
    match h2 : (H.subtypes m).filter (fun s => H.matches' s layer_attributes functions_kwargs) with
    | [] => .ok none
    | s :: _ =>
      match H.determine_subtype s layer_attributes functions_kwargs with
      | .error e => .error e
      | .ok (some nested) => .ok (some nested)
      | .ok none => .ok (some s)
  else .error multipleSubtypesMsg
termination_by H.rank m
decreasing_by
  exact H.rank_lt m s (List.mem_of_mem_filter (h2 ▸ List.mem_cons_self s _))

/-- The hierarchy formed by the registered PyTorch metatype classes. -/
def PTHierarchy : SubtypeHierarchy PTOperatorMetatype where
  subtypes := PTOperatorMetatype.get_subtypes
  matches' := PTOperatorMetatype.matches'
  rank := PTOperatorMetatype.rank
  rank_lt := by
    intro m s hs
    cases m <;>
      simp only [PTOperatorMetatype.get_subtypes, List.mem_singleton,
        List.not_mem_nil] at hs <;>
      first
        | exact hs.elim
        | (subst hs; decide)

/-- `determine_subtype` as invoked on the PyTorch metatype classes. -/
def PTOperatorMetatype.determine_subtype (m : PTOperatorMetatype)
    (layer_attributes : Option BaseLayerAttributes)
    (functions_kwargs : Option FunctionsKwargs) : Except String (Option PTOperatorMetatype) :=
  PTHierarchy.determine_subtype m layer_attributes functions_kwargs

/-- `get_all_aliases` of each registered class: the union of the function
names in `module_to_function_names` and `external_op_names`, as declared
in the source.  `NNCFGraphNodeType.INPUT_NODE` / `OUTPUT_NODE` (from
`nncf/common/graph/definitions.py`, outside the provided sources) are
modelled from the spec as the designated graph-input/graph-output
operator names `"nncf_model_input"` / `"nncf_model_output"`. -/
def PTOperatorMetatype.get_all_aliases : PTOperatorMetatype → List String
  | .UnknownMetatype => []
  | .PTInputNoopMetatype => ["input_noop", "nncf_model_input"]
  | .PTOutputNoopMetatype => ["output_noop", "nncf_model_output"]
  | .PTNoopMetatype => ["noop", "contiguous", "clone"]
  | .PTDepthwiseConv1dSubtype => ["conv1d"]
  | .PTModuleConv1dMetatype => ["conv1d"]
  | .PTConv1dMetatype => ["conv1d"]
  | .PTDepthwiseConv2dSubtype => ["conv2d"]
  | .PTModuleConv2dMetatype => ["conv2d"]
  | .PTConv2dMetatype => ["conv2d"]
  | .PTDepthwiseConv3dSubtype => ["conv3d"]
  | .PTModuleConv3dMetatype => ["conv3d"]
  | .PTConv3dMetatype => ["conv3d"]
  | .PTModuleConvTranspose1dMetatype => ["conv_transpose1d"]
  | .PTConvTranspose1dMetatype => ["conv_transpose1d"]
  | .PTModuleConvTranspose2dMetatype => ["conv_transpose2d"]
  | .PTConvTranspose2dMetatype => ["conv_transpose2d"]
  | .PTModuleConvTranspose3dMetatype => ["conv_transpose3d"]
  | .PTConvTranspose3dMetatype => ["conv_transpose3d"]
  | .PTModuleDeformConv2dMetatype => ["deform_conv2d"]
  | .PTDeformConv2dMetatype => ["deform_conv2d"]
  | .PTModuleLinearMetatype => ["linear", "addmm"]
  | .PTLinearMetatype => ["linear", "addmm"]
  | .PTHardTanhMetatype => ["hardtanh"]
  | .PTHardSwishMetatype => ["hardswish"]
  | .PTHardSigmoidMetatype => ["hardsigmoid"]
  | .PTTanhMetatype => ["tanh"]
  | .PTELUMetatype => ["elu", "elu_"]
  | .PTPRELUMetatype => ["prelu"]
  | .PTLeakyRELUMetatype => ["leaky_relu"]
  | .PTModuleLayerNormMetatype => ["layer_norm"]
  | .PTLayerNormMetatype => ["layer_norm"]
  | .PTModuleGroupNormMetatype => ["group_norm"]
  | .PTGroupNormMetatype => ["group_norm"]
  | .PTGELUMetatype => ["gelu"]
  | .PTSILUMetatype => ["silu"]
  | .PTSigmoidMetatype => ["sigmoid"]
  | .PTAddMetatype => ["add", "__add__", "__iadd__", "__radd__"]
  | .PTSubMetatype => ["sub", "__sub__", "__isub__", "__rsub__"]
  | .PTMulMetatype => ["mul", "__mul__", "__imul__", "__rmul__"]
  | .PTDivMetatype => ["__div__", "__idiv__", "__truediv__", "div"]
  | .PTFloorDivMetatype => ["__floordiv__", "__ifloordiv__", "__rfloordiv__"]
  | .PTExpMetatype => ["exp"]
  | .PTLogMetatype => ["log"]
  | .PTAbsMetatype => ["abs"]
  | .PTErfMetatype => ["erf"]
  | .PTMatMulMetatype => ["matmul", "__matmul__", "bmm", "mm"]
  | .PTBaddBmmMetatype => ["baddbmm"]
  | .PTMeanMetatype => ["mean"]
  | .PTRoundMetatype => ["round"]
  | .PTDropoutMetatype => ["dropout"]
  | .PTThresholdMetatype => ["threshold"]
  | .PTModuleBatchNormMetatype => ["batch_norm"]
  | .PTBatchNormMetatype => ["batch_norm"]
  | .PTAvgPool2dMetatype => ["avg_pool2d", "adaptive_avg_pool2d"]
  | .PTAvgPool3dMetatype => ["avg_pool3d", "adaptive_avg_pool3d"]
  | .PTMaxPool1dMetatype => ["max_pool1d", "adaptive_max_pool1d"]
  | .PTMaxPool2dMetatype => ["max_pool2d", "adaptive_max_pool2d"]
  | .PTMaxPool3dMetatype => ["max_pool3d", "adaptive_max_pool3d"]
  | .PTMaxUnpool1dMetatype => ["max_unpool1d"]
  | .PTMaxUnpool2dMetatype => ["max_unpool2d"]
  | .PTMaxUnpool3dMetatype => ["max_unpool3d"]
  | .PTPadMetatype => ["pad"]
  | .PTCatMetatype => ["cat", "stack"]
  | .PTRELUMetatype => ["relu", "relu_"]
  | .PTRELU6Metatype => ["relu6"]
  | .PTMaxMetatype => ["max"]
  | .PTMinMetatype => ["min"]
  | .PTTransposeMetatype => ["transpose", "permute", "transpose_"]
  | .PTGatherMetatype => ["index_select", "__getitem__", "gather", "where"]
  | .PTScatterMetatype => ["scatter", "masked_fill", "masked_fill_"]
  | .PTReshapeMetatype => ["reshape", "view", "flatten", "unsqueeze"]
  | .PTSqueezeMetatype => ["squeeze"]
  | .PTSplitMetatype => ["split", "chunk", "unbind"]
  | .PTExpandMetatype => ["expand"]
  | .PTExpandAsMetatype => ["expand_as"]
  | .PTModuleEmbeddingMetatype => ["embedding"]
  | .PTEmbeddingMetatype => ["embedding"]
  | .PTModuleEmbeddingBagMetatype => ["embedding_bag"]
  | .PTEmbeddingBagMetatype => ["embedding_bag"]
  | .PTSoftmaxMetatype => ["softmax"]
  | .PTLessMetatype => ["__lt__"]
  | .PTLessEqualMetatype => ["__le__"]
  | .PTGreaterMetatype => ["__gt__"]
  | .PTGreaterEqualMetatype => ["__ge__"]
  | .PTModMetatype => ["__mod__"]
  | .PTEqualsMetatype => ["__eq__"]
  | .PTNotEqualMetatype => ["__ne__"]
  | .PTLogicalOrMetatype => ["__or__"]
  | .PTLogicalXorMetatype => ["__xor__"]
  | .PTLogicalAndMetatype => ["__and__"]
  | .PTLogicalNotMetatype => ["logical_not_"]
  | .PTPowerMetatype => ["__pow__", "pow"]
  | .PTSqrtMetatype => ["sqrt", "sqrt_"]
  | .PTInterpolateMetatype => ["interpolate"]
  | .PTRepeatMetatype => ["repeat_interleave"]
  | .PTPixelShuffleMetatype => ["pixel_shuffle"]
  | .PTSumMetatype => ["sum"]
  | .PTReduceL2 => ["normalize"]

open PTOperatorMetatype in
/-- The classes carrying `@PT_OPERATOR_METATYPES.register()`, in source
order (`PTMaxPool1dMetatype` is absent: it has no register decorator). -/
def registered_in_order : List PTOperatorMetatype :=
  [PTInputNoopMetatype, PTOutputNoopMetatype, PTNoopMetatype,
   PTDepthwiseConv1dSubtype, PTModuleConv1dMetatype, PTConv1dMetatype,
   PTDepthwiseConv2dSubtype, PTModuleConv2dMetatype, PTConv2dMetatype,
   PTDepthwiseConv3dSubtype, PTModuleConv3dMetatype, PTConv3dMetatype,
   PTModuleConvTranspose1dMetatype, PTConvTranspose1dMetatype,
   PTModuleConvTranspose2dMetatype, PTConvTranspose2dMetatype,
   PTModuleConvTranspose3dMetatype, PTConvTranspose3dMetatype,
   PTModuleDeformConv2dMetatype, PTDeformConv2dMetatype,
   PTModuleLinearMetatype, PTLinearMetatype,
   PTHardTanhMetatype, PTHardSwishMetatype, PTHardSigmoidMetatype,
   PTTanhMetatype, PTELUMetatype, PTPRELUMetatype, PTLeakyRELUMetatype,
   PTModuleLayerNormMetatype, PTLayerNormMetatype,
   PTModuleGroupNormMetatype, PTGroupNormMetatype,
   PTGELUMetatype, PTSILUMetatype, PTSigmoidMetatype,
   PTAddMetatype, PTSubMetatype, PTMulMetatype, PTDivMetatype,
   PTFloorDivMetatype, PTExpMetatype, PTLogMetatype, PTAbsMetatype,
   PTErfMetatype, PTMatMulMetatype, PTBaddBmmMetatype, PTMeanMetatype,
   PTRoundMetatype, PTDropoutMetatype, PTThresholdMetatype,
   PTModuleBatchNormMetatype, PTBatchNormMetatype,
   PTAvgPool2dMetatype, PTAvgPool3dMetatype,
   PTMaxPool2dMetatype, PTMaxPool3dMetatype,
   PTMaxUnpool1dMetatype, PTMaxUnpool2dMetatype, PTMaxUnpool3dMetatype,
   PTPadMetatype, PTCatMetatype, PTRELUMetatype, PTRELU6Metatype,
   PTMaxMetatype, PTMinMetatype, PTTransposeMetatype, PTGatherMetatype,
   PTScatterMetatype, PTReshapeMetatype, PTSqueezeMetatype,
   PTSplitMetatype, PTExpandMetatype, PTExpandAsMetatype,
   PTModuleEmbeddingMetatype, PTEmbeddingMetatype,
   PTModuleEmbeddingBagMetatype, PTEmbeddingBagMetatype,
   PTSoftmaxMetatype, PTLessMetatype, PTLessEqualMetatype,
   PTGreaterMetatype, PTGreaterEqualMetatype, PTModMetatype,
   PTEqualsMetatype, PTNotEqualMetatype, PTLogicalOrMetatype,
   PTLogicalXorMetatype, PTLogicalAndMetatype, PTLogicalNotMetatype,
   PTPowerMetatype, PTSqrtMetatype, PTInterpolateMetatype,
   PTRepeatMetatype, PTPixelShuffleMetatype, PTSumMetatype, PTReduceL2]

/-- Modelled from the spec: the operator-name-to-metatype catalog built by
`OperatorMetatypeRegistry.register()` (the registry class lives in
`nncf/common/graph/operator_metatypes.py`, outside the provided sources).
Each registered class binds every one of its aliases to itself, a later
registration of a compatible wider class overwriting the earlier binding.
Dictionary assignment is modelled by pushing the new binding in front of
the catalog, so that `List.lookup` — which returns the first, i.e. most
recent, binding for a key — realizes the overwrite.  In the provided
source every subtype is registered before its root class, so each alias
ends up bound to its root metatype, as the spec states ("an operator name
maps to exactly one root metatype"). -/
def PT_OPERATOR_METATYPES : List (String × PTOperatorMetatype) :=
  registered_in_order.foldl
    (fun d m => m.get_all_aliases.foldl (fun d a => (a, m) :: d) d) []

/-- Modelled from the spec:
`OperatorMetatypeRegistry.get_operator_metatype_by_op_name` — "returns the
root metatype registered for that exact operator alias; if no metatype is
registered for `name`, a designated unknown/generic fallback metatype is
returned — this must never raise". -/
def get_operator_metatype_by_op_name (op_name : String) : PTOperatorMetatype :=
  match PT_OPERATOR_METATYPES.lookup op_name with
  | some m => m
  | none => .UnknownMetatype

/-- The `INPUT_NOOP_METATYPES` registry: in the provided source exactly
`PTInputNoopMetatype` carries the `@INPUT_NOOP_METATYPES.register()`
decorator. -/
def INPUT_NOOP_METATYPES : List PTOperatorMetatype := [.PTInputNoopMetatype]

/-- Python string comparison (lexicographic by Unicode code point) on
character lists: the order used by `sorted(..., key=str)` in the
converter. -/
def lexLe : List Char → List Char → Bool
  | [], _ => true
  | _ :: _, [] => false
  | a :: as, b :: bs =>
    if a.toNat < b.toNat then true
    else if b.toNat < a.toNat then false
    else lexLe as bs

/-- Python `str` comparison `a <= b`. -/
def pyStrLe (a b : String) : Bool := lexLe a.data b.data

/-- `pyStrLe` as a binary relation, for use with `List.insertionSort`. -/
def scopeLe (a b : String) : Prop := pyStrLe a b = true

instance scopeLe.decidableRel : DecidableRel scopeLe := fun a b =>
  inferInstanceAs (Decidable (pyStrLe a b = true))

instance scopeLe.isTotal : IsTotal String scopeLe where
  total a b := by
    show lexLe a.data b.data = true ∨ lexLe b.data a.data = true
    generalize a.data = as
    generalize b.data = bs
    induction as generalizing bs with
    | nil => left; rfl
    | cons a as ih =>
      cases bs with
      | nil => right; rfl
      | cons b bs =>
        simp only [lexLe]
        rcases Nat.lt_trichotomy a.toNat b.toNat with h | h | h
        · left; simp [h]
        · have h1 : ¬ a.toNat < b.toNat := by omega
          have h2 : ¬ b.toNat < a.toNat := by omega
          rcases ih bs with hc | hc <;> simp [h1, h2, hc]
        · right; simp [h, Nat.lt_asymm h]

instance scopeLe.isTrans : IsTrans String scopeLe where
  trans a b c hab hbc := by
    show lexLe a.data c.data = true
    rw [scopeLe] at hab hbc
    rw [pyStrLe] at hab hbc
    generalize a.data = as at hab ⊢
    generalize b.data = bs at hab hbc
    generalize c.data = cs at hbc ⊢
    revert hab hbc
    induction as generalizing bs cs with
    | nil => intro _ _; rfl
    | cons a as ih =>
      intro hab hbc
      cases bs with
      | nil => simp [lexLe] at hab
      | cons b bs =>
        cases cs with
        | nil => simp [lexLe] at hbc
        | cons c cs =>
          simp only [lexLe] at hab hbc ⊢
          by_cases h1 : a.toNat < b.toNat
          · by_cases h2 : b.toNat < c.toNat
            · rw [if_pos (show a.toNat < c.toNat by omega)]
            · by_cases h3 : c.toNat < b.toNat
              · rw [if_neg h2, if_pos h3] at hbc
                exact absurd hbc (by simp)
              · rw [if_pos (show a.toNat < c.toNat by omega)]
          · by_cases h2 : b.toNat < a.toNat
            · rw [if_neg h1, if_pos h2] at hab
              exact absurd hab (by simp)
            · rw [if_neg h1, if_neg h2] at hab
              by_cases h3 : b.toNat < c.toNat
              · rw [if_pos (show a.toNat < c.toNat by omega)]
              · by_cases h4 : c.toNat < b.toNat
                · rw [if_neg h3, if_pos h4] at hbc
                  exact absurd hbc (by simp)
                · rw [if_neg h3, if_neg h4] at hbc
                  rw [if_neg (show ¬ a.toNat < c.toNat by omega),
                    if_neg (show ¬ c.toNat < a.toNat by omega)]
                  exact ih bs cs hab hbc

/-- A scope path.  Modelled from the spec: `Scope` objects (outside the
provided sources) are compared and emitted through their string form
(`key=str` when sorting, `str(canonical_scope)` when emitting), so a
scope is modelled as its string form. -/
abbrev Scope := String

/-- Modelled from the spec: `OperatorAddress` (outside the provided
sources) — the call-site address the converter reads: the scope path at
the call site (`scope_in_model`), the operator name, and the sequence
index `call_order` ("used to map trace nodes back to declared model
inputs"). -/
structure OperatorAddress where
  operator_name : String
  scope_in_model : Scope
  call_order : Nat
deriving DecidableEq

/-- Modelled from the spec: `str(op_address)`, the human-readable node
name derived from the address. -/
def OperatorAddress.str (a : OperatorAddress) : String :=
  a.scope_in_model ++ "/" ++ a.operator_name ++ "_" ++ toString a.call_order

/-- Tensor element dtype carried on edges. -/
inductive TensorDtype where
  | float
  | integer
deriving DecidableEq

/-- Modelled from the spec: a `DynamicGraphNode` of the trace (the
dynamic-graph classes are outside the provided sources), with exactly the
attributes `GraphConverter.convert` reads: `node_id`,
`calling_module_id` (`none` models Python `None`),
`op_exec_context.op_address` (flattened to `op_address`),
`layer_attributes`, the `is_called_inside_nncf_module` flag (read through
`__dict__` by `PTModuleOperatorSubtype.matches`), `is_in_iteration_scope`
and `ignored_algorithms`. -/
structure DynamicGraphNode where
  node_id : Nat
  calling_module_id : Option Nat
  op_address : OperatorAddress
  layer_attributes : Option BaseLayerAttributes
  is_called_inside_nncf_module : Bool
  is_in_iteration_scope : Bool
  ignored_algorithms : List String
deriving DecidableEq

/-- The node's `__dict__` as consumed by `matches` (only the
`IS_CALLED_INSIDE_NNCF_MODULE` key is ever read). -/
def DynamicGraphNode.node_dict (n : DynamicGraphNode) : FunctionsKwargs :=
  [(IS_CALLED_INSIDE_NNCF_MODULE, n.is_called_inside_nncf_module)]

/-- Modelled from the spec: a `DynamicGraphEdge` of the trace, with the
fields the converter copies. -/
structure DynamicGraphEdge where
  from_node_id : Nat
  to_node_id : Nat
  activation_shape : List Nat
  input_port_id : Nat
  output_port_id : Nat
  dtype : TensorDtype
  parallel_input_port_ids : List Nat
deriving DecidableEq

/-- Modelled from the spec: the `DynamicGraph` trace —
`get_all_nodes()` / `get_all_edges()` return its finite node and edge
sequences. -/
structure DynamicGraph where
  nodes : List DynamicGraphNode
  edges : List DynamicGraphEdge
deriving DecidableEq

/-- Modelled from the spec: `ModelInputInfo` — "per declared input
position, whether the input is integer-valued" (`is_integer_input()`). -/
structure ModelInputInfo where
  is_integer_input : Bool
deriving DecidableEq

/-- Modelled from the spec: a `StaticNode` of the produced graph, with the
fields passed to `add_nncf_node` in the source. -/
structure NNCFNode where
  node_id : Nat
  node_name : String
  node_type : String
  node_metatype : PTOperatorMetatype
  layer_attributes : Option BaseLayerAttributes
  layer_name : String
  is_shared : Bool
  is_integer_input : Bool
  is_in_iteration_scope : Bool
  ignored_algorithms : List String
deriving DecidableEq

/-- Modelled from the spec: a `StaticEdge`, with the fields passed to
`add_edge_between_nncf_nodes` in the source. -/
structure NNCFEdge where
  from_node_id : Nat
  to_node_id : Nat
  tensor_shape : List Nat
  input_port_id : Nat
  output_port_id : Nat
  dtype : TensorDtype
  parallel_input_port_ids : List Nat
deriving DecidableEq

/-- Modelled from the spec: `PTNNCFGraph`, the static graph container;
`add_nncf_node` / `add_edge_between_nncf_nodes` append to its node and
edge sequences. -/
structure PTNNCFGraph where
  nodes : List NNCFNode
  edges : List NNCFEdge
deriving DecidableEq

/-- The Python exception classes the modelled code can raise: a failed
`assert` (`AssertionError`, with its message) and an out-of-range list
subscript (`IndexError`). -/
inductive PyError where
  | assertionError (msg : String)
  | indexError
deriving DecidableEq

/-- `module_id_vs_known_op_addrs_map[mid]`: the set of distinct op
addresses of the trace nodes whose `calling_module_id` equals `mid`
(`defaultdict(set)` keyed by the owning-module id — a `none` id is a key
like any other; the Python set of addresses is modelled as a deduplicated
list). -/
def known_op_addrs (g : DynamicGraph) (mid : Option Nat) : List OperatorAddress :=
  ((g.nodes.filter (fun n => n.calling_module_id == mid)).map (fun n => n.op_address)).dedup

/-- `module_id_vs_sorted_scopes_map[mid]`:
`list(sorted([s.scope_in_model for s in v], key=str))` — the scope paths
of the known op addresses (duplicates kept: the set was a set of
addresses, not of scopes), sorted by their string form. -/
def sorted_scopes (g : DynamicGraph) (mid : Option Nat) : List Scope :=
  List.insertionSort scopeLe ((known_op_addrs g mid).map (fun a => a.scope_in_model))

/-- `is_shared = len(module_id_vs_sorted_scopes_map[...]) > 1`. -/
def is_shared_of (g : DynamicGraph) (mid : Option Nat) : Bool :=
  decide (1 < (sorted_scopes g mid).length)

/-- `canonical_scope = module_id_vs_sorted_scopes_map[...][0]`.  The
subscript cannot fail at the source's call sites: the key was populated
from the very node being converted, so the list is non-empty (see
`sorted_scopes_nonempty_of_mem`). -/
def canonical_scope_of (g : DynamicGraph) (mid : Option Nat) : Scope :=
  (sorted_scopes g mid).headD ""

/-- The distinct scope paths associated with an owning unit — the notion
the spec's "more than one associated scope" refers to. -/
def unit_scopes (g : DynamicGraph) (mid : Option Nat) : List Scope :=
  ((known_op_addrs g mid).map (fun a => a.scope_in_model)).dedup

/-- Resolution of a node's metatype in `GraphConverter.convert`: registry
lookup by operator name, followed by `determine_subtype` when the looked
up metatype declares subtypes (the failed ambiguity assert propagates as
`AssertionError`). -/
def GraphConverter.resolved_metatype (n : DynamicGraphNode) :
    Except PyError PTOperatorMetatype :=
  let metatype := get_operator_metatype_by_op_name n.op_address.operator_name
  if metatype.get_subtypes = [] then .ok metatype
  else
    match metatype.determine_subtype n.layer_attributes (some n.node_dict) with
    | .error msg => .error (.assertionError msg)
    | .ok none => .ok metatype
    | .ok (some subtype) => .ok subtype

/-- The integer-input tagging step of `GraphConverter.convert`:
`if metatype in INPUT_NOOP_METATYPES and input_infos is not None:` read
`input_infos[op_address.call_order].is_integer_input()`; the subscript
raises `IndexError` when `call_order` is out of range. -/
def GraphConverter.integer_input_flag (metatype : PTOperatorMetatype)
    (input_infos : Option (List ModelInputInfo)) (call_order : Nat) :
    Except PyError Bool :=
  match input_infos with
  | none => .ok false
  | some infos =>
    if metatype ∈ INPUT_NOOP_METATYPES then
      if h : call_order < infos.length then
        .ok (infos.get ⟨call_order, h⟩).is_integer_input
      else .error .indexError
    else .ok false

/-- One iteration of the node loop of `GraphConverter.convert`: the
`add_nncf_node` call's arguments for one trace node. -/
def GraphConverter.convertNode (g : DynamicGraph)
    (input_infos : Option (List ModelInputInfo)) (n : DynamicGraphNode) :
    Except PyError NNCFNode :=
  match GraphConverter.resolved_metatype n with
  | .error e => .error e
  | .ok metatype =>
    match GraphConverter.integer_input_flag metatype input_infos n.op_address.call_order with
    | .error e => .error e
    | .ok is_integer_input =>
      .ok {
        node_id := n.node_id
        node_name := n.op_address.str
        node_type := n.op_address.operator_name
        node_metatype := metatype
        layer_attributes := n.layer_attributes
        layer_name := canonical_scope_of g n.calling_module_id
        is_shared := is_shared_of g n.calling_module_id
        is_integer_input := is_integer_input
        is_in_iteration_scope := n.is_in_iteration_scope
        ignored_algorithms := n.ignored_algorithms
      }

/-- The node loop of `GraphConverter.convert`: nodes processed in trace
order, the first raised exception aborting the whole conversion. -/
def GraphConverter.convertNodes (g : DynamicGraph)
    (input_infos : Option (List ModelInputInfo)) :
    List DynamicGraphNode → Except PyError (List NNCFNode)
  | [] => .ok []
  | n :: rest =>
    match GraphConverter.convertNode g input_infos n with
    | .error e => .error e
    | .ok cn =>
      match GraphConverter.convertNodes g input_infos rest with
      | .error e => .error e
      | .ok crest => .ok (cn :: crest)

/-- The edge loop of `GraphConverter.convert`: every trace edge is copied
verbatim into an `add_edge_between_nncf_nodes` call. -/
def GraphConverter.convertEdge (e : DynamicGraphEdge) : NNCFEdge :=
  { from_node_id := e.from_node_id
    to_node_id := e.to_node_id
    tensor_shape := e.activation_shape
    input_port_id := e.input_port_id
    output_port_id := e.output_port_id
    dtype := e.dtype
    parallel_input_port_ids := e.parallel_input_port_ids }

/-- `GraphConverter.convert(dynamic_graph, input_infos)`.  The trailing
`set_nodes_attributes_in_nncf_graph` call is the external
attribute-derivation pass, out of scope per the spec ("it mutates
per-node layer attributes" only) and not modelled. -/
def GraphConverter.convert (g : DynamicGraph)
    (input_infos : Option (List ModelInputInfo)) : Except PyError PTNNCFGraph :=
  match GraphConverter.convertNodes g input_infos g.nodes with
  | .error e => .error e
  | .ok nodes => .ok { nodes := nodes, edges := g.edges.map GraphConverter.convertEdge }

/-- Edges entering a node (`get_input_edges`). -/
def input_edges (g : PTNNCFGraph) (n : NNCFNode) : List NNCFEdge :=
  g.edges.filter (fun e => e.to_node_id == n.node_id)

/-- Edges leaving a node (`get_output_edges`). -/
def output_edges (g : PTNNCFGraph) (n : NNCFNode) : List NNCFEdge :=
  g.edges.filter (fun e => e.from_node_id == n.node_id)

/-- Modelled from the spec: the validation performed by
`remove_nodes_and_reconnect_graph` (in `nncf/quantization/passes.py`,
outside the provided sources) on each node selected for removal — the
node must be a structural pass-through with exactly one incoming edge,
every outgoing edge's tensor shape must equal the incoming edge's shape,
and neither the incoming edge nor any outgoing edge may carry a non-empty
parallel-input-port set.  Any violation fails the whole operation with an
assertion failure. -/
def node_removal_check (g : PTNNCFGraph) (n : NNCFNode) : Bool :=
  match input_edges g n with
  | [p] =>
    (output_edges g n).all (fun o => o.tensor_shape == p.tensor_shape) &&
      p.parallel_input_port_ids == [] &&
      (output_edges g n).all (fun o => o.parallel_input_port_ids == [])
  | _ => false

/-- Modelled from the spec: the rewrite applied to one validated node `N`
with single incoming edge `P = (S, N)` — remove `N` and every edge
incident to it, and for each outgoing edge `O_i = (N, D_i)` insert one
new edge `(S, D_i)` taking the output port, shape and dtype from `P`, the
input port from `O_i`, and an empty parallel-port set. -/
def remove_one (g : PTNNCFGraph) (n : NNCFNode) : PTNNCFGraph :=
  match input_edges g n with
  | [p] =>
    { nodes := g.nodes.filter (fun m => m.node_id != n.node_id)
      edges :=
        g.edges.filter (fun e => e.from_node_id != n.node_id && e.to_node_id != n.node_id) ++
          (output_edges g n).map (fun o =>
            { from_node_id := p.from_node_id
              to_node_id := o.to_node_id
              tensor_shape := p.tensor_shape
              input_port_id := o.input_port_id
              output_port_id := p.output_port_id
              dtype := p.dtype
              parallel_input_port_ids := [] }) }
  | _ => g

/-- The assertion message used for the unsafe-rewrite-precondition
failure. -/
def unsafeRemovalMsg : String :=
  "Removal of the node is not safe: shape mismatch or parallel input ports present"

/-- Modelled from the spec: `remove_nodes_and_reconnect_graph(graph,
target_metatypes)` — a node qualifies iff its metatype is in
`target_metatypes`; every qualifying node is validated, either check
failing the whole operation with an assertion failure and leaving the
graph unmodified (no partial application); once validated, qualifying
nodes are rewritten in stable producer-before-consumer (trace) order. -/
def remove_nodes_and_reconnect_graph (g : PTNNCFGraph)
    (target_metatypes : List PTOperatorMetatype) : Except PyError PTNNCFGraph :=
  let qualifying := g.nodes.filter (fun n => decide (n.node_metatype ∈ target_metatypes))
  if qualifying.all (node_removal_check g) then
    .ok (qualifying.foldl remove_one g)
  else .error (.assertionError unsafeRemovalMsg)

/-- A synthetic metatype universe in which two sibling subtypes (0 and 1,
below 2) both match every node — the registry-configuration defect the
ambiguity assertion guards against (akin to the spec's synthetic-registry
ambiguity test). -/
def ambiguousH : SubtypeHierarchy Nat where
  subtypes m := if m = 2 then [0, 1] else []
  matches' _ _ _ := true
  rank m := m
  rank_lt := by
    intro m s hs
    by_cases h : m = 2
    · subst h
      simp at hs
      rcases hs with rfl | rfl <;> decide
    · simp [h] at hs

/-- Trace fixture: one stateful unit (module id 1) issuing two operator
calls from the same scope `"A"` (distinct call orders).  The unit has one
distinct associated scope but two known op addresses. -/
def gC1x : DynamicGraph :=
  { nodes :=
      [{ node_id := 0, calling_module_id := some 1
         op_address := { operator_name := "relu", scope_in_model := "A", call_order := 0 }
         layer_attributes := none, is_called_inside_nncf_module := true
         is_in_iteration_scope := false, ignored_algorithms := [] },
       { node_id := 1, calling_module_id := some 1
         op_address := { operator_name := "relu", scope_in_model := "A", call_order := 1 }
         layer_attributes := none, is_called_inside_nncf_module := true
         is_in_iteration_scope := false, ignored_algorithms := [] }]
    edges := [] }

/-- Trace fixture: one stateful unit (module id 1) invoked from the three
scopes `"b"`, `"a"`, `"c"` — the spec's canonical-scope determinism
scenario. -/
def gC1w : DynamicGraph :=
  { nodes :=
      [{ node_id := 0, calling_module_id := some 1
         op_address := { operator_name := "relu", scope_in_model := "b", call_order := 0 }
         layer_attributes := none, is_called_inside_nncf_module := true
         is_in_iteration_scope := false, ignored_algorithms := [] },
       { node_id := 1, calling_module_id := some 1
         op_address := { operator_name := "relu", scope_in_model := "a", call_order := 1 }
         layer_attributes := none, is_called_inside_nncf_module := true
         is_in_iteration_scope := false, ignored_algorithms := [] },
       { node_id := 2, calling_module_id := some 1
         op_address := { operator_name := "relu", scope_in_model := "c", call_order := 2 }
         layer_attributes := none, is_called_inside_nncf_module := true
         is_in_iteration_scope := false, ignored_algorithms := [] }]
    edges := [] }

/-- Trace fixture: two free-function calls (null owning-module id) from
the different scopes `"B"` and `"A"`. -/
def gC5x : DynamicGraph :=
  { nodes :=
      [{ node_id := 0, calling_module_id := none
         op_address := { operator_name := "relu", scope_in_model := "B", call_order := 0 }
         layer_attributes := none, is_called_inside_nncf_module := false
         is_in_iteration_scope := false, ignored_algorithms := [] },
       { node_id := 1, calling_module_id := none
         op_address := { operator_name := "relu", scope_in_model := "A", call_order := 1 }
         layer_attributes := none, is_called_inside_nncf_module := false
         is_in_iteration_scope := false, ignored_algorithms := [] }]
    edges := [] }

/-- Trace fixture: a single graph-input node whose input-sequence index
(5) lies outside any one-element `input_specs` list. -/
def nC4x : DynamicGraphNode :=
  { node_id := 0, calling_module_id := none
    op_address := { operator_name := "nncf_model_input", scope_in_model := "I", call_order := 5 }
    layer_attributes := none, is_called_inside_nncf_module := false
    is_in_iteration_scope := false, ignored_algorithms := [] }

def gC4x : DynamicGraph := { nodes := [nC4x], edges := [] }

/-- Trace fixture for the no-`input_specs` case: one ordinary node. -/
def gC4b : DynamicGraph :=
  { nodes :=
      [{ node_id := 3, calling_module_id := none
         op_address := { operator_name := "tanh", scope_in_model := "M", call_order := 0 }
         layer_attributes := none, is_called_inside_nncf_module := false
         is_in_iteration_scope := false, ignored_algorithms := [] }]
    edges := [] }

/-- Trace fixture with two nodes of distinct ids for the node-identity
claim. -/
def gC9w : DynamicGraph :=
  { nodes :=
      [{ node_id := 5, calling_module_id := none
         op_address := { operator_name := "relu", scope_in_model := "X", call_order := 0 }
         layer_attributes := none, is_called_inside_nncf_module := false
         is_in_iteration_scope := false, ignored_algorithms := [] },
       { node_id := 7, calling_module_id := some 4
         op_address := { operator_name := "tanh", scope_in_model := "Y", call_order := 1 }
         layer_attributes := none, is_called_inside_nncf_module := true
         is_in_iteration_scope := false, ignored_algorithms := [] }]
    edges := [] }

/-- A trace edge with non-trivial field values for the edge round-trip
claim. -/
def eC10 : DynamicGraphEdge :=
  { from_node_id := 5, to_node_id := 7, activation_shape := [1, 10]
    input_port_id := 1, output_port_id := 0, dtype := .integer
    parallel_input_port_ids := [2, 3] }

def gC10w : DynamicGraph :=
  { nodes :=
      [{ node_id := 5, calling_module_id := none
         op_address := { operator_name := "relu", scope_in_model := "X", call_order := 0 }
         layer_attributes := none, is_called_inside_nncf_module := false
         is_in_iteration_scope := false, ignored_algorithms := [] },
       { node_id := 7, calling_module_id := none
         op_address := { operator_name := "tanh", scope_in_model := "Y", call_order := 1 }
         layer_attributes := none, is_called_inside_nncf_module := false
         is_in_iteration_scope := false, ignored_algorithms := [] }]
    edges := [eC10] }

/-- Static-graph fixtures: the spec's literal 4-node chain
`Input -> Dropout -> Linear -> Output`. -/
def nInputFx : NNCFNode :=
  { node_id := 0, node_name := "In/nncf_model_input_0", node_type := "nncf_model_input"
    node_metatype := .PTInputNoopMetatype, layer_attributes := none, layer_name := "In"
    is_shared := false, is_integer_input := false, is_in_iteration_scope := false
    ignored_algorithms := [] }

def nDropoutFx : NNCFNode :=
  { node_id := 1, node_name := "M/dropout_0", node_type := "dropout"
    node_metatype := .PTDropoutMetatype, layer_attributes := none, layer_name := "M"
    is_shared := false, is_integer_input := false, is_in_iteration_scope := false
    ignored_algorithms := [] }

def nLinearFx : NNCFNode :=
  { node_id := 2, node_name := "M/linear_0", node_type := "linear"
    node_metatype := .PTLinearMetatype, layer_attributes := none, layer_name := "M"
    is_shared := false, is_integer_input := false, is_in_iteration_scope := false
    ignored_algorithms := [] }

def nOutputFx : NNCFNode :=
  { node_id := 3, node_name := "Out/nncf_model_output_0", node_type := "nncf_model_output"
    node_metatype := .PTOutputNoopMetatype, layer_attributes := none, layer_name := "Out"
    is_shared := false, is_integer_input := false, is_in_iteration_scope := false
    ignored_algorithms := [] }

def eInFx : NNCFEdge :=
  { from_node_id := 0, to_node_id := 1, tensor_shape := [1, 10]
    input_port_id := 0, output_port_id := 0, dtype := .float
    parallel_input_port_ids := [] }

def eMidFx : NNCFEdge :=
  { from_node_id := 1, to_node_id := 2, tensor_shape := [1, 10]
    input_port_id := 0, output_port_id := 0, dtype := .float
    parallel_input_port_ids := [] }

def eOutFx : NNCFEdge :=
  { from_node_id := 2, to_node_id := 3, tensor_shape := [1, 10]
    input_port_id := 0, output_port_id := 0, dtype := .float
    parallel_input_port_ids := [] }

/-- The valid removal scenario. -/
def gC7w : PTNNCFGraph :=
  { nodes := [nInputFx, nDropoutFx, nLinearFx, nOutputFx]
    edges := [eInFx, eMidFx, eOutFx] }

/-- Dropout's outgoing edge with the mismatched shape `[1, 5]`. -/
def eMidBad : NNCFEdge :=
  { from_node_id := 1, to_node_id := 2, tensor_shape := [1, 5]
    input_port_id := 0, output_port_id := 0, dtype := .float
    parallel_input_port_ids := [] }

/-- The shape-mismatch removal scenario. -/
def gC6w : PTNNCFGraph :=
  { nodes := [nInputFx, nDropoutFx, nLinearFx, nOutputFx]
    edges := [eInFx, eMidBad, eOutFx] }

theorem PTOperatorMetatype.rank_lt_of_mem_subtypes :
    ∀ m s : PTOperatorMetatype, s ∈ m.get_subtypes → s.rank < m.rank := by
  intro m s hs
  cases m <;>
    simp only [PTOperatorMetatype.get_subtypes, List.mem_singleton, List.not_mem_nil] at hs <;>
    first
      | exact hs.elim
      | (subst hs; decide)

/-- Each registered metatype class declares at most one direct subtype
(every `subtypes = [...]` list in the source is a singleton). -/
theorem PTOperatorMetatype.get_subtypes_length_le_one :
    ∀ m : PTOperatorMetatype, m.get_subtypes.length ≤ 1 := by
  intro m
  cases m <;> simp [PTOperatorMetatype.get_subtypes]

theorem determine_subtype_of_subtypes_nil {α : Type} (H : SubtypeHierarchy α) (m : α)
    (la : Option BaseLayerAttributes) (kw : Option FunctionsKwargs)
    (h : H.subtypes m = []) : H.determine_subtype m la kw = .ok none := by
  rw [SubtypeHierarchy.determine_subtype.eq_def]
  rw [if_pos (by simp [h])]
  split
  · rfl
  · next s tail heq => rw [h] at heq; simp at heq

theorem determine_subtype_of_subtypes_singleton {α : Type} (H : SubtypeHierarchy α) (m s : α)
    (la : Option BaseLayerAttributes) (kw : Option FunctionsKwargs)
    (h : H.subtypes m = [s]) :
    H.determine_subtype m la kw =
      if H.matches' s la kw then
        match H.determine_subtype s la kw with
        | .error e => .error e
        | .ok (some nested) => .ok (some nested)
        | .ok none => .ok (some s)
      else .ok none := by
  rw [SubtypeHierarchy.determine_subtype.eq_def]
  by_cases hm : H.matches' s la kw
  · have hf : (H.subtypes m).filter (fun x => H.matches' x la kw) = [s] := by
      rw [h]; simp [List.filter, hm]
    have hlen : ((H.subtypes m).filter (fun x => H.matches' x la kw)).length ≤ 1 := by
      rw [hf]; simp
    rw [if_pos hlen]
    rw [if_pos hm]
    split
    · next heq => rw [hf] at heq; simp at heq
    · next s' tail heq =>
      rw [hf] at heq
      injection heq with h1 h2
      subst h1; subst h2
      rfl
  · have hf : (H.subtypes m).filter (fun x => H.matches' x la kw) = [] := by
      rw [h]; simp [List.filter, hm]
    have hlen : ((H.subtypes m).filter (fun x => H.matches' x la kw)).length ≤ 1 := by
      rw [hf]; simp
    rw [if_pos hlen]
    rw [if_neg hm]
    split
    · rfl
    · next s' tail heq => rw [hf] at heq; simp at heq

/-- When every class declares at most one direct subtype — as every class
in the provided registry does — `determine_subtype` never trips its
ambiguity assertion. -/
theorem determine_subtype_ok_of_subtypes_le_one {α : Type} (H : SubtypeHierarchy α)
    (hle : ∀ m, (H.subtypes m).length ≤ 1) :
    ∀ m la kw, ∃ r, H.determine_subtype m la kw = .ok r := by
  have key : ∀ n : Nat, ∀ m, H.rank m ≤ n →
      ∀ la kw, ∃ r, H.determine_subtype m la kw = .ok r := by
    intro n
    induction n with
    | zero =>
      intro m hm la kw
      rw [SubtypeHierarchy.determine_subtype.eq_def]
      rw [if_pos (le_trans (List.length_filter_le _ _) (hle m))]
      split
      · exact ⟨none, rfl⟩
      · next s tail heq =>
        have hmem : s ∈ H.subtypes m :=
          List.mem_of_mem_filter (heq ▸ List.mem_cons_self s tail)
        exact absurd (H.rank_lt m s hmem) (by omega)
    | succ n ih =>
      intro m hm la kw
      rw [SubtypeHierarchy.determine_subtype.eq_def]
      rw [if_pos (le_trans (List.length_filter_le _ _) (hle m))]
      split
      · exact ⟨none, rfl⟩
      · next s tail heq =>
        have hmem : s ∈ H.subtypes m :=
          List.mem_of_mem_filter (heq ▸ List.mem_cons_self s tail)
        have hrank : H.rank s ≤ n := by have := H.rank_lt m s hmem; omega
        obtain ⟨r, hr⟩ := ih s hrank la kw
        rw [hr]
        cases r with
        | none => exact ⟨some s, rfl⟩
        | some nested => exact ⟨some nested, rfl⟩
  intro m la kw
  exact key (H.rank m) m le_rfl la kw

theorem pt_determine_subtype_ok (m : PTOperatorMetatype)
    (la : Option BaseLayerAttributes) (kw : Option FunctionsKwargs) :
    ∃ r, m.determine_subtype la kw = .ok r :=
  determine_subtype_ok_of_subtypes_le_one PTHierarchy
    PTOperatorMetatype.get_subtypes_length_le_one m la kw

theorem lexLe_refl (as : List Char) : lexLe as as = true := by
  induction as with
  | nil => rfl
  | cons a as ih => simp [lexLe, ih]

theorem scopeLe_refl (s : String) : scopeLe s s := lexLe_refl s.data

theorem mem_sorted_scopes {g : DynamicGraph} {mid : Option Nat} {x : Scope} :
    x ∈ sorted_scopes g mid ↔ x ∈ (known_op_addrs g mid).map (fun a => a.scope_in_model) := by
  unfold sorted_scopes
  exact (List.perm_insertionSort scopeLe _).mem_iff

theorem scope_mem_known_of_node {g : DynamicGraph} {n : DynamicGraphNode}
    (hn : n ∈ g.nodes) :
    n.op_address.scope_in_model ∈
      (known_op_addrs g n.calling_module_id).map (fun a => a.scope_in_model) := by
  apply List.mem_map_of_mem
  unfold known_op_addrs
  rw [List.mem_dedup]
  apply List.mem_map_of_mem
  rw [List.mem_filter]
  exact ⟨hn, by simp⟩

theorem sorted_scopes_nonempty_of_mem {g : DynamicGraph} {n : DynamicGraphNode}
    (hn : n ∈ g.nodes) : sorted_scopes g n.calling_module_id ≠ [] := by
  intro hempty
  have := mem_sorted_scopes.mpr (scope_mem_known_of_node hn)
  rw [hempty] at this
  exact List.not_mem_nil _ this

/-- The canonical scope of a unit that owns at least one node of the
trace is an associated scope of that unit, and is `scopeLe`-below every
associated scope (duplicates or not). -/
theorem canonical_scope_least {g : DynamicGraph} {n : DynamicGraphNode}
    (hn : n ∈ g.nodes) :
    canonical_scope_of g n.calling_module_id ∈
        (known_op_addrs g n.calling_module_id).map (fun a => a.scope_in_model) ∧
      ∀ s ∈ (known_op_addrs g n.calling_module_id).map (fun a => a.scope_in_model),
        scopeLe (canonical_scope_of g n.calling_module_id) s := by
  cases hss : sorted_scopes g n.calling_module_id with
  | nil => exact absurd hss (sorted_scopes_nonempty_of_mem hn)
  | cons hd tl =>
    have hcan : canonical_scope_of g n.calling_module_id = hd := by
      unfold canonical_scope_of
      rw [hss]
      rfl
    have hsorted : List.Sorted scopeLe (hd :: tl) := by
      rw [← hss]
      exact List.sorted_insertionSort scopeLe _
    constructor
    · rw [hcan, ← mem_sorted_scopes, hss]
      exact List.mem_cons_self hd tl
    · intro s hs
      rw [← mem_sorted_scopes, hss] at hs
      rw [hcan]
      rcases List.mem_cons.mp hs with rfl | hs
      · exact scopeLe_refl s
      · exact List.rel_of_sorted_cons hsorted s hs

/-- Membership and order transfer from the raw scope list to the
deduplicated `unit_scopes` list. -/
theorem canonical_scope_least_distinct {g : DynamicGraph} {n : DynamicGraphNode}
    (hn : n ∈ g.nodes) :
    canonical_scope_of g n.calling_module_id ∈ unit_scopes g n.calling_module_id ∧
      ∀ s ∈ unit_scopes g n.calling_module_id,
        scopeLe (canonical_scope_of g n.calling_module_id) s := by
  obtain ⟨hmem, hleast⟩ := canonical_scope_least hn
  refine ⟨List.mem_dedup.mpr hmem, fun s hs => hleast s (List.mem_dedup.mp hs)⟩

theorem GraphConverter.convertNode_ok_fields {g : DynamicGraph}
    {input_infos : Option (List ModelInputInfo)} {n : DynamicGraphNode} {cn : NNCFNode}
    (h : GraphConverter.convertNode g input_infos n = .ok cn) :
    cn.node_id = n.node_id ∧
      cn.layer_name = canonical_scope_of g n.calling_module_id ∧
      cn.is_shared = is_shared_of g n.calling_module_id := by
  unfold GraphConverter.convertNode at h
  split at h
  · cases h
  · split at h
    · cases h
    · injection h with h
      subst h
      exact ⟨rfl, rfl, rfl⟩

theorem GraphConverter.convertNodes_forall2 {g : DynamicGraph}
    {input_infos : Option (List ModelInputInfo)} :
    ∀ {l : List DynamicGraphNode} {l' : List NNCFNode},
      GraphConverter.convertNodes g input_infos l = .ok l' →
      List.Forall₂ (fun n cn => GraphConverter.convertNode g input_infos n = .ok cn) l l'
  | [], l', h => by
    unfold GraphConverter.convertNodes at h
    injection h with h
    subst h
    exact List.Forall₂.nil
  | n :: rest, l', h => by
    unfold GraphConverter.convertNodes at h
    split at h
    · cases h
    · next cn hn =>
      split at h
      · cases h
      · next crest hrest =>
        injection h with h
        subst h
        exact List.Forall₂.cons hn (GraphConverter.convertNodes_forall2 hrest)

theorem GraphConverter.convert_ok {g : DynamicGraph}
    {input_infos : Option (List ModelInputInfo)} {res : PTNNCFGraph}
    (h : GraphConverter.convert g input_infos = .ok res) :
    GraphConverter.convertNodes g input_infos g.nodes = .ok res.nodes ∧
      res.edges = g.edges.map GraphConverter.convertEdge := by
  unfold GraphConverter.convert at h
  split at h
  · cases h
  · next nodes hn =>
    injection h with h
    subst h
    exact ⟨hn, rfl⟩

/-- Metatype resolution in the converter never raises: the registry
lookup is total and every registered class declares at most one direct
subtype, so the ambiguity assertion cannot fire. -/
theorem GraphConverter.resolved_metatype_ok (n : DynamicGraphNode) :
    ∃ mt, GraphConverter.resolved_metatype n = .ok mt := by
  by_cases hsub :
      (get_operator_metatype_by_op_name n.op_address.operator_name).get_subtypes = []
  · refine ⟨get_operator_metatype_by_op_name n.op_address.operator_name, ?_⟩
    simp [GraphConverter.resolved_metatype, hsub]
  · obtain ⟨r, hr⟩ :=
      pt_determine_subtype_ok (get_operator_metatype_by_op_name n.op_address.operator_name)
        n.layer_attributes (some n.node_dict)
    cases r with
    | none =>
      refine ⟨get_operator_metatype_by_op_name n.op_address.operator_name, ?_⟩
      simp [GraphConverter.resolved_metatype, hsub, hr]
    | some subtype =>
      refine ⟨subtype, ?_⟩
      simp [GraphConverter.resolved_metatype, hsub, hr]

theorem GraphConverter.integer_input_flag_error {mt : PTOperatorMetatype}
    {input_infos : Option (List ModelInputInfo)} {call_order : Nat} {e : PyError}
    (h : GraphConverter.integer_input_flag mt input_infos call_order = .error e) :
    e = .indexError := by
  unfold GraphConverter.integer_input_flag at h
  split at h
  · cases h
  · split at h
    · split at h
      · cases h
      · injection h with h
        exact h.symm
    · cases h

/-- The only exception one node-loop iteration can raise is the
`IndexError` of the integer-input lookup. -/
theorem GraphConverter.convertNode_error_eq_index {g : DynamicGraph}
    {input_infos : Option (List ModelInputInfo)} {n : DynamicGraphNode} {e : PyError}
    (h : GraphConverter.convertNode g input_infos n = .error e) : e = .indexError := by
  unfold GraphConverter.convertNode at h
  split at h
  · next e' he =>
    obtain ⟨mt, hmt⟩ := GraphConverter.resolved_metatype_ok n
    rw [hmt] at he
    cases he
  · split at h
    · next e' he =>
      injection h with h
      subst h
      exact GraphConverter.integer_input_flag_error he
    · cases h

/-- Without an `input_specs` list the integer-input flag of every emitted
node is false. -/
theorem GraphConverter.convertNode_flag_false_of_no_infos {g : DynamicGraph}
    {n : DynamicGraphNode} {cn : NNCFNode}
    (h : GraphConverter.convertNode g none n = .ok cn) : cn.is_integer_input = false := by
  unfold GraphConverter.convertNode at h
  split at h
  · cases h
  · split at h
    · cases h
    · next b hb =>
      unfold GraphConverter.integer_input_flag at hb
      injection hb with hb
      injection h with h
      subst h
      exact hb.symm

theorem forall2_mem_right {α β : Type} {R : α → β → Prop} :
    ∀ {l : List α} {l' : List β}, List.Forall₂ R l l' → ∀ b ∈ l', ∃ a ∈ l, R a b
  | _, _, List.Forall₂.nil, b, hb => absurd hb (List.not_mem_nil b)
  | _, _, List.Forall₂.cons h htl, b, hb => by
    rcases List.mem_cons.mp hb with rfl | hb
    · exact ⟨_, List.mem_cons_self .., h⟩
    · obtain ⟨a, ha, hR⟩ := forall2_mem_right htl b hb
      exact ⟨a, List.mem_cons_of_mem _ ha, hR⟩

/-- If some node of the list raises `IndexError`, the node loop raises
`IndexError` (whichever node fails first, `IndexError` is the only
possible exception). -/
theorem GraphConverter.convertNodes_error_of_mem {g : DynamicGraph}
    {input_infos : Option (List ModelInputInfo)} {n : DynamicGraphNode} :
    ∀ {l : List DynamicGraphNode}, n ∈ l →
      GraphConverter.convertNode g input_infos n = .error .indexError →
      GraphConverter.convertNodes g input_infos l = .error .indexError := by
  intro l
  induction l with
  | nil => intro hmem; exact absurd hmem (List.not_mem_nil n)
  | cons hd tl ih =>
    intro hmem hn
    unfold GraphConverter.convertNodes
    cases hhd : GraphConverter.convertNode g input_infos hd with
    | error e =>
      have he : e = PyError.indexError := GraphConverter.convertNode_error_eq_index hhd
      subst he
      rfl
    | ok cn =>
      rcases List.mem_cons.mp hmem with rfl | hmem
      · rw [hn] at hhd; cases hhd
      · rw [ih hmem hn]

theorem map_node_id_of_forall2 {g : DynamicGraph}
    {input_infos : Option (List ModelInputInfo)} :
    ∀ {l : List DynamicGraphNode} {l' : List NNCFNode},
      List.Forall₂ (fun n cn => GraphConverter.convertNode g input_infos n = .ok cn) l l' →
      l'.map (fun cn => cn.node_id) = l.map (fun n => n.node_id)
  | _, _, List.Forall₂.nil => rfl
  | _, _, List.Forall₂.cons h htl => by
    simp only [List.map_cons]
    rw [map_node_id_of_forall2 htl, (GraphConverter.convertNode_ok_fields h).1]

theorem sorted_scopes_length (g : DynamicGraph) (mid : Option Nat) :
    (sorted_scopes g mid).length = (known_op_addrs g mid).length := by
  unfold sorted_scopes
  rw [List.length_insertionSort, List.length_map]

/-- Per-index correspondence of the converted nodes: scope label and
shared flag of the i-th emitted node come from the canonicalization maps
at the i-th trace node's owning-module id. -/
theorem convert_node_scope_facts {g : DynamicGraph}
    {input_infos : Option (List ModelInputInfo)} {res : PTNNCFGraph} {i : Nat}
    (hi : i < g.nodes.length)
    (h : GraphConverter.convert g input_infos = .ok res) :
    ∃ hi' : i < res.nodes.length,
      (res.nodes.get ⟨i, hi'⟩).layer_name =
          canonical_scope_of g (g.nodes.get ⟨i, hi⟩).calling_module_id ∧
        (res.nodes.get ⟨i, hi'⟩).is_shared =
          is_shared_of g (g.nodes.get ⟨i, hi⟩).calling_module_id := by
  obtain ⟨hnodes, _⟩ := GraphConverter.convert_ok h
  have hf2 := GraphConverter.convertNodes_forall2 hnodes
  obtain ⟨hlen, hget⟩ := List.forall₂_iff_get.mp hf2
  have hi' : i < res.nodes.length := hlen ▸ hi
  obtain ⟨_, hname, hshared⟩ := GraphConverter.convertNode_ok_fields (hget i hi hi')
  exact ⟨hi', hname, hshared⟩

theorem lookup_eq_none_of_not_mem {β : Type} {l : List (String × β)} {k : String}
    (h : k ∉ l.map Prod.fst) : l.lookup k = none := by
  induction l with
  | nil => rfl
  | cons p l ih =>
    rw [List.map_cons] at h
    simp only [List.mem_cons, not_or] at h
    have hbeq : (k == p.1) = false := beq_eq_false_iff_ne.mpr h.1
    simp [List.lookup, hbeq, ih h.2]

/-- Claim C2: for every metatype universe, metatype, layer-attributes
value and call context, if two or more of the metatype's direct subtype
descriptors' match predicates return true at the same level,
`determine_subtype` fails loudly with the ambiguous-classification
assertion and never silently returns one of the matching subtypes. -/
theorem determine_subtype_fails_on_ambiguous_matches {α : Type}
    (H : SubtypeHierarchy α) (m : α) (la : Option BaseLayerAttributes)
    (kw : Option FunctionsKwargs)
    (h : 2 ≤ ((H.subtypes m).filter (fun s => H.matches' s la kw)).length) :
    H.determine_subtype m la kw = .error multipleSubtypesMsg := by
  rw [SubtypeHierarchy.determine_subtype.eq_def]
  rw [if_neg (by omega)]

/-- Claim C8: registry lookup is total — for every operator name it
returns a metatype, and for a name registered by no metatype class it
returns the designated unknown/generic fallback metatype. -/
theorem get_operator_metatype_fallback_for_unregistered (name : String)
    (h : name ∉ PT_OPERATOR_METATYPES.map Prod.fst) :
    get_operator_metatype_by_op_name name = .UnknownMetatype := by
  unfold get_operator_metatype_by_op_name
  rw [lookup_eq_none_of_not_mem h]

/-- Claim C9: conversion preserves node identity — the emitted node ids
are exactly the trace node ids, position by position, and (node ids being
unique within a trace, per the tracer contract) the trace-node-to-static-
node mapping is a bijection over node ids. -/
theorem convert_preserves_node_ids (g : DynamicGraph)
    (input_infos : Option (List ModelInputInfo)) (res : PTNNCFGraph)
    (hids : (g.nodes.map (fun n => n.node_id)).Nodup)
    (h : GraphConverter.convert g input_infos = .ok res) :
    res.nodes.map (fun cn => cn.node_id) = g.nodes.map (fun n => n.node_id) ∧
      (res.nodes.map (fun cn => cn.node_id)).Nodup := by
  obtain ⟨hnodes, _⟩ := GraphConverter.convert_ok h
  have hmap := map_node_id_of_forall2 (GraphConverter.convertNodes_forall2 hnodes)
  exact ⟨hmap, hmap ▸ hids⟩

/-- Claim C10: for every trace edge `convert` emits exactly one static
edge (the edge list is the verbatim image of the trace edge list), and
the translation preserves source id, destination id, tensor shape, dtype,
input port, output port and the parallel-input-port set; it performs no
lookups and cannot fail. -/
theorem convert_edges_verbatim (g : DynamicGraph)
    (input_infos : Option (List ModelInputInfo)) (res : PTNNCFGraph)
    (h : GraphConverter.convert g input_infos = .ok res) :
    res.edges = g.edges.map GraphConverter.convertEdge ∧
      ∀ e : DynamicGraphEdge,
        (GraphConverter.convertEdge e).from_node_id = e.from_node_id ∧
          (GraphConverter.convertEdge e).to_node_id = e.to_node_id ∧
          (GraphConverter.convertEdge e).tensor_shape = e.activation_shape ∧
          (GraphConverter.convertEdge e).dtype = e.dtype ∧
          (GraphConverter.convertEdge e).input_port_id = e.input_port_id ∧
          (GraphConverter.convertEdge e).output_port_id = e.output_port_id ∧
          (GraphConverter.convertEdge e).parallel_input_port_ids = e.parallel_input_port_ids :=
  ⟨(GraphConverter.convert_ok h).2, fun _ => ⟨rfl, rfl, rfl, rfl, rfl, rfl, rfl⟩⟩

/-- Claim C1 (amended): for every trace node owned by a unit `m`, the
emitted node's canonical scope is the lexicographically least (by string
form) of the distinct scope paths observed for that unit across the whole
trace, and the shared flag is true iff the unit has more than one
distinct call-site op address across the trace (the source counts the
per-address scope list with duplicates, not the distinct scopes);
conversion is a pure function, so two runs on the same trace agree. -/
theorem convert_canonical_scope_and_shared_for_owned_nodes
    (g : DynamicGraph) (input_infos : Option (List ModelInputInfo)) (res : PTNNCFGraph)
    (i m : Nat) (hi : i < g.nodes.length)
    (h : GraphConverter.convert g input_infos = .ok res)
    (hmid : (g.nodes.get ⟨i, hi⟩).calling_module_id = some m) :
    ∃ hi' : i < res.nodes.length,
      ((res.nodes.get ⟨i, hi'⟩).layer_name ∈ unit_scopes g (some m) ∧
        ∀ s ∈ unit_scopes g (some m), scopeLe (res.nodes.get ⟨i, hi'⟩).layer_name s) ∧
      ((res.nodes.get ⟨i, hi'⟩).is_shared = true ↔
        1 < (known_op_addrs g (some m)).length) := by
  obtain ⟨hi', hname, hshared⟩ := convert_node_scope_facts hi h
  refine ⟨hi', ?_, ?_⟩
  · rw [hname, hmid]
    have hleast := canonical_scope_least_distinct (List.get_mem g.nodes i hi)
    rw [hmid] at hleast
    exact hleast
  · rw [hshared, hmid]
    unfold is_shared_of
    rw [sorted_scopes_length]
    simp

/-- Claim C5 (amended): trace nodes whose owning-module id is null are
grouped under the null key exactly like any other key — such a node's
scope label is the lexicographically least scope path observed across all
null-owner call sites of the trace (not necessarily its own scope path),
and its shared flag is true iff more than one distinct null-owner op
address exists in the trace. -/
theorem convert_null_owner_scope_and_shared
    (g : DynamicGraph) (input_infos : Option (List ModelInputInfo)) (res : PTNNCFGraph)
    (i : Nat) (hi : i < g.nodes.length)
    (h : GraphConverter.convert g input_infos = .ok res)
    (hmid : (g.nodes.get ⟨i, hi⟩).calling_module_id = none) :
    ∃ hi' : i < res.nodes.length,
      ((res.nodes.get ⟨i, hi'⟩).layer_name ∈ unit_scopes g none ∧
        ∀ s ∈ unit_scopes g none, scopeLe (res.nodes.get ⟨i, hi'⟩).layer_name s) ∧
      ((res.nodes.get ⟨i, hi'⟩).is_shared = true ↔
        1 < (known_op_addrs g none).length) := by
  obtain ⟨hi', hname, hshared⟩ := convert_node_scope_facts hi h
  refine ⟨hi', ?_, ?_⟩
  · rw [hname, hmid]
    have hleast := canonical_scope_least_distinct (List.get_mem g.nodes i hi)
    rw [hmid] at hleast
    exact hleast
  · rw [hshared, hmid]
    unfold is_shared_of
    rw [sorted_scopes_length]
    simp

/-- Claim C4 (amended): when an `input_specs` list is supplied and a
graph-input node's input-sequence index is outside the declared range,
`convert` raises `IndexError` rather than completing (the source indexes
`input_infos[input_id]` unguarded); and whenever no `input_specs` list is
supplied, every emitted node's integer-input flag is false. -/
theorem convert_out_of_range_input_spec_raises :
    (∀ (g : DynamicGraph) (infos : List ModelInputInfo) (n : DynamicGraphNode)
        (mt : PTOperatorMetatype),
        n ∈ g.nodes →
        GraphConverter.resolved_metatype n = .ok mt →
        mt ∈ INPUT_NOOP_METATYPES →
        infos.length ≤ n.op_address.call_order →
        GraphConverter.convert g (some infos) = .error .indexError) ∧
    (∀ (g : DynamicGraph) (res : PTNNCFGraph),
        GraphConverter.convert g none = .ok res →
        ∀ cn ∈ res.nodes, cn.is_integer_input = false) := by
  constructor
  · intro g infos n mt hn hres hmt hrange
    have hflag : GraphConverter.integer_input_flag mt (some infos) n.op_address.call_order =
        .error .indexError := by
      simp only [GraphConverter.integer_input_flag]
      rw [if_pos hmt]
      rw [dif_neg (by omega)]
    have hnode : GraphConverter.convertNode g (some infos) n = .error .indexError := by
      unfold GraphConverter.convertNode
      simp only [hres, hflag]
    have hnodes := GraphConverter.convertNodes_error_of_mem hn hnode
    unfold GraphConverter.convert
    rw [hnodes]
  · intro g res h cn hcn
    obtain ⟨hnodes, _⟩ := GraphConverter.convert_ok h
    obtain ⟨n, _, hR⟩ :=
      forall2_mem_right (GraphConverter.convertNodes_forall2 hnodes) cn hcn
    exact GraphConverter.convertNode_flag_false_of_no_infos hR

/-- Claim C3: a convolution node with `groups == in_channels > 1` and a
module-bound call context resolves from the root 2-d convolution
metatype to the depthwise specialization nested beneath the module-bound
specialization (the deepest match); with `groups = 1` it resolves to the
module-bound, non-depthwise metatype. -/
theorem conv2d_depthwise_module_subtype_resolution
    (in_channels out_channels groups : Nat) (kw : FunctionsKwargs)
    (hkw : kw.lookup IS_CALLED_INSIDE_NNCF_MODULE = some true) :
    (groups = in_channels → 1 < in_channels →
      PTOperatorMetatype.determine_subtype .PTConv2dMetatype
          (some (.convolution in_channels out_channels groups)) (some kw) =
        .ok (some .PTDepthwiseConv2dSubtype)) ∧
    (groups = 1 →
      PTOperatorMetatype.determine_subtype .PTConv2dMetatype
          (some (.convolution in_channels out_channels groups)) (some kw) =
        .ok (some .PTModuleConv2dMetatype)) := by
  have hmod : PTHierarchy.matches' PTOperatorMetatype.PTModuleConv2dMetatype
      (some (.convolution in_channels out_channels groups)) (some kw) = true := by
    show PTOperatorMetatype.matches' PTOperatorMetatype.PTModuleConv2dMetatype
      (some (.convolution in_channels out_channels groups)) (some kw) = true
    simp only [PTOperatorMetatype.matches', PTModuleOperatorSubtype.matches', hkw]
  have hsub1 : PTHierarchy.subtypes PTOperatorMetatype.PTConv2dMetatype =
      [PTOperatorMetatype.PTModuleConv2dMetatype] := rfl
  have hsub2 : PTHierarchy.subtypes PTOperatorMetatype.PTModuleConv2dMetatype =
      [PTOperatorMetatype.PTDepthwiseConv2dSubtype] := rfl
  have hsub3 : PTHierarchy.subtypes PTOperatorMetatype.PTDepthwiseConv2dSubtype = [] := rfl
  constructor
  · intro hg hc
    have hdw : PTHierarchy.matches' PTOperatorMetatype.PTDepthwiseConv2dSubtype
        (some (.convolution in_channels out_channels groups)) (some kw) = true := by
      show PTOperatorMetatype.matches' PTOperatorMetatype.PTDepthwiseConv2dSubtype
        (some (.convolution in_channels out_channels groups)) (some kw) = true
      simp only [PTOperatorMetatype.matches', PTDepthwiseConvOperatorSubtype.matches']
      subst hg
      simp [hc]
    unfold PTOperatorMetatype.determine_subtype
    rw [determine_subtype_of_subtypes_singleton PTHierarchy _ _ _ _ hsub1]
    rw [determine_subtype_of_subtypes_singleton PTHierarchy _ _ _ _ hsub2]
    rw [determine_subtype_of_subtypes_nil PTHierarchy _ _ _ hsub3]
    rw [hmod, hdw]
    simp
  · intro hg
    have hdw0 : PTHierarchy.matches' PTOperatorMetatype.PTDepthwiseConv2dSubtype
        (some (.convolution in_channels out_channels groups)) (some kw) = false := by
      show PTOperatorMetatype.matches' PTOperatorMetatype.PTDepthwiseConv2dSubtype
        (some (.convolution in_channels out_channels groups)) (some kw) = false
      simp only [PTOperatorMetatype.matches', PTDepthwiseConvOperatorSubtype.matches']
      subst hg
      rcases eq_or_ne in_channels 1 with h | h
      · subst h; decide
      · have hne : (1 == in_channels) = false :=
          beq_eq_false_iff_ne.mpr (fun e => h e.symm)
        simp [hne]
    unfold PTOperatorMetatype.determine_subtype
    rw [determine_subtype_of_subtypes_singleton PTHierarchy _ _ _ _ hsub1]
    rw [determine_subtype_of_subtypes_singleton PTHierarchy _ _ _ _ hsub2]
    rw [hmod, hdw0]
    simp

/-- Claim C6: if any node selected for removal has an outgoing edge whose
tensor shape differs from its single incoming edge's shape, or its
incoming edge or any outgoing edge carries a non-empty parallel-port set,
`remove_nodes_and_reconnect_graph` raises an assertion failure; no graph
is produced (no partial application, no silent skip). -/
theorem remove_nodes_rejects_unsafe_precondition
    (g : PTNNCFGraph) (targets : List PTOperatorMetatype) (n : NNCFNode) (p : NNCFEdge)
    (hn : n ∈ g.nodes) (hsel : n.node_metatype ∈ targets)
    (hin : input_edges g n = [p])
    (hbad : (∃ o ∈ output_edges g n, o.tensor_shape ≠ p.tensor_shape) ∨
      p.parallel_input_port_ids ≠ [] ∨
      ∃ o ∈ output_edges g n, o.parallel_input_port_ids ≠ []) :
    remove_nodes_and_reconnect_graph g targets =
      .error (.assertionError unsafeRemovalMsg) := by
  have hcheck : node_removal_check g n = false := by
    rw [Bool.eq_false_iff]
    intro hch
    simp only [node_removal_check, hin, Bool.and_eq_true, List.all_eq_true,
      beq_iff_eq] at hch
    obtain ⟨⟨hsh, hpp⟩, hop⟩ := hch
    rcases hbad with ⟨o, ho, hne⟩ | hpar | ⟨o, ho, hne⟩
    · exact hne (hsh o ho)
    · exact hpar hpp
    · exact hne (hop o ho)
  have hmem : n ∈ g.nodes.filter (fun m => decide (m.node_metatype ∈ targets)) :=
    List.mem_filter.mpr ⟨hn, by simpa using hsel⟩
  have hall : ¬ ((g.nodes.filter (fun m => decide (m.node_metatype ∈ targets))).all
      (node_removal_check g) = true) := by
    intro hall
    rw [List.all_eq_true] at hall
    have := hall n hmem
    rw [hcheck] at this
    cases this
  unfold remove_nodes_and_reconnect_graph
  rw [if_neg hall]

/-- Claim C7: for a validated qualifying node `N` (single incoming edge
`P` from source `S`, outgoing edges `O_1..O_k`, and `N` the sole
qualifying node), `remove_nodes_and_reconnect_graph` removes `N` and all
edges incident to `N` and inserts, for each `O_i` to destination `D_i`,
exactly one new edge from `S` to `D_i` whose output port is `P`'s output
port, whose input port is `O_i`'s input port, whose shape and dtype come
from `P`, and whose parallel-port set is empty; a qualifying node with
zero outgoing edges is deleted together with its incoming edge (the
inserted list is then empty). -/
theorem remove_nodes_reconnects_validated_node
    (g : PTNNCFGraph) (targets : List PTOperatorMetatype) (n : NNCFNode) (p : NNCFEdge)
    (hq : g.nodes.filter (fun m => decide (m.node_metatype ∈ targets)) = [n])
    (hcheck : node_removal_check g n = true)
    (hin : input_edges g n = [p]) :
    remove_nodes_and_reconnect_graph g targets =
      .ok { nodes := g.nodes.filter (fun m => m.node_id != n.node_id)
            edges :=
              g.edges.filter
                  (fun e => e.from_node_id != n.node_id && e.to_node_id != n.node_id) ++
                (output_edges g n).map (fun o =>
                  { from_node_id := p.from_node_id
                    to_node_id := o.to_node_id
                    tensor_shape := p.tensor_shape
                    input_port_id := o.input_port_id
                    output_port_id := p.output_port_id
                    dtype := p.dtype
                    parallel_input_port_ids := [] }) } := by
  unfold remove_nodes_and_reconnect_graph
  rw [hq]
  rw [if_pos (by simp [List.all_eq_true, hcheck])]
  simp only [List.foldl]
  unfold remove_one
  rw [hin]

/-- Claim C1 counterexample: in `gC1x` the owning unit has exactly one
distinct associated scope, yet `convert` marks both of its nodes shared —
the source counts distinct op addresses (two here), not distinct scopes,
so "shared iff more than one distinct associated scope" fails on this
trace. -/
theorem convert_shared_flag_claim_counterexample :
    (unit_scopes gC1x (some 1)).length = 1 ∧
      (GraphConverter.convert gC1x none).map (fun r => r.nodes.map (fun cn => cn.is_shared)) =
        .ok [true, true] :=
  ⟨rfl, rfl⟩

/-- Claim C1 witness: in the spec's `{"b", "a", "c"}` scenario the first
node's canonical scope is an associated scope that is lexicographically
least, and the unit is shared. -/
theorem convert_canonical_scope_and_shared_for_owned_nodes_witness :
    ∃ res, GraphConverter.convert gC1w none = Except.ok res ∧
      ∃ hi' : 0 < res.nodes.length,
        ((res.nodes.get ⟨0, hi'⟩).layer_name ∈ unit_scopes gC1w (some 1) ∧
          ∀ s ∈ unit_scopes gC1w (some 1), scopeLe (res.nodes.get ⟨0, hi'⟩).layer_name s) ∧
        ((res.nodes.get ⟨0, hi'⟩).is_shared = true ↔
          1 < (known_op_addrs gC1w (some 1)).length) := by
  obtain ⟨res, hres⟩ : ∃ res, GraphConverter.convert gC1w none = Except.ok res := ⟨_, rfl⟩
  exact ⟨res, hres,
    convert_canonical_scope_and_shared_for_owned_nodes gC1w none res 0 1 (by decide)
      hres (by decide)⟩

/-- Claim C5 counterexample: the first node of `gC5x` owns no unit and
its own scope path is `"B"`, yet `convert` labels it with scope `"A"`
(the least scope across all null-owner call sites) and marks it shared —
null-owner nodes do not keep their own scope and can be marked shared. -/
theorem convert_null_owner_scope_counterexample :
    gC5x.nodes.map (fun n => n.op_address.scope_in_model) = ["B", "A"] ∧
      (GraphConverter.convert gC5x none).map
          (fun r => r.nodes.map (fun cn => (cn.layer_name, cn.is_shared))) =
        .ok [("A", true), ("A", true)] :=
  ⟨rfl, rfl⟩

/-- Claim C5 witness: the amended statement at the concrete trace
`gC5x`. -/
theorem convert_null_owner_scope_and_shared_witness :
    ∃ res, GraphConverter.convert gC5x none = Except.ok res ∧
      ∃ hi' : 0 < res.nodes.length,
        ((res.nodes.get ⟨0, hi'⟩).layer_name ∈ unit_scopes gC5x none ∧
          ∀ s ∈ unit_scopes gC5x none, scopeLe (res.nodes.get ⟨0, hi'⟩).layer_name s) ∧
        ((res.nodes.get ⟨0, hi'⟩).is_shared = true ↔
          1 < (known_op_addrs gC5x none).length) := by
  obtain ⟨res, hres⟩ : ∃ res, GraphConverter.convert gC5x none = Except.ok res := ⟨_, rfl⟩
  exact ⟨res, hres,
    convert_null_owner_scope_and_shared gC5x none res 0 (by decide) hres (by decide)⟩

/-- Claim C4 counterexample: a graph-input node with input-sequence index
5 and a one-element `input_specs` list — `convert` raises `IndexError`
instead of completing with a false integer-input flag. -/
theorem convert_out_of_range_input_spec_counterexample :
    nC4x ∈ gC4x.nodes ∧
      GraphConverter.resolved_metatype nC4x =
        Except.ok PTOperatorMetatype.PTInputNoopMetatype ∧
      [({ is_integer_input := false } : ModelInputInfo)].length ≤ nC4x.op_address.call_order ∧
      GraphConverter.convert gC4x (some [{ is_integer_input := false }]) =
        Except.error PyError.indexError :=
  ⟨by decide, rfl, by decide, rfl⟩

/-- Claim C4 witness: the amended statement at the concrete traces `gC4x`
(out-of-range index, conversion raises) and `gC4b` (no `input_specs`,
flag false). -/
theorem convert_out_of_range_input_spec_raises_witness :
    GraphConverter.convert gC4x (some [{ is_integer_input := false }]) =
        Except.error PyError.indexError ∧
      ∃ res, GraphConverter.convert gC4b none = Except.ok res ∧
        ∀ cn ∈ res.nodes, cn.is_integer_input = false := by
  constructor
  · exact convert_out_of_range_input_spec_raises.1 gC4x [{ is_integer_input := false }]
      nC4x PTOperatorMetatype.PTInputNoopMetatype (by decide) rfl (by decide) (by decide)
  · obtain ⟨res, hres⟩ : ∃ res, GraphConverter.convert gC4b none = Except.ok res := ⟨_, rfl⟩
    exact ⟨res, hres, convert_out_of_range_input_spec_raises.2 gC4b res hres⟩

/-- Claim C2 witness: applying the ambiguity theorem to the synthetic
two-matching-subtypes universe. -/
theorem determine_subtype_fails_on_ambiguous_matches_witness :
    2 ≤ ((ambiguousH.subtypes 2).filter (fun s => ambiguousH.matches' s none none)).length ∧
      ambiguousH.determine_subtype 2 none none = .error multipleSubtypesMsg :=
  ⟨by decide, determine_subtype_fails_on_ambiguous_matches ambiguousH 2 none none (by decide)⟩

/-- Claim C3 witness: concrete depthwise (`groups = in_channels = 2`) and
plain (`groups = 1`) convolution attributes under a module-bound call
context. -/
theorem conv2d_depthwise_module_subtype_resolution_witness :
    PTOperatorMetatype.determine_subtype .PTConv2dMetatype
        (some (.convolution 2 4 2)) (some [(IS_CALLED_INSIDE_NNCF_MODULE, true)]) =
      .ok (some .PTDepthwiseConv2dSubtype) ∧
    PTOperatorMetatype.determine_subtype .PTConv2dMetatype
        (some (.convolution 3 4 1)) (some [(IS_CALLED_INSIDE_NNCF_MODULE, true)]) =
      .ok (some .PTModuleConv2dMetatype) :=
  ⟨(conv2d_depthwise_module_subtype_resolution 2 4 2
      [(IS_CALLED_INSIDE_NNCF_MODULE, true)] rfl).1 rfl (by decide),
   (conv2d_depthwise_module_subtype_resolution 3 4 1
      [(IS_CALLED_INSIDE_NNCF_MODULE, true)] rfl).2 rfl⟩

/-- Claim C8 witness: a name registered by no metatype class falls back
to the unknown metatype. -/
theorem get_operator_metatype_fallback_for_unregistered_witness :
    get_operator_metatype_by_op_name "definitely_unregistered_op" = .UnknownMetatype :=
  get_operator_metatype_fallback_for_unregistered "definitely_unregistered_op" (by decide)

/-- Claim C9 witness: the node-identity statement at the concrete trace
`gC9w`. -/
theorem convert_preserves_node_ids_witness :
    ∃ res, GraphConverter.convert gC9w none = Except.ok res ∧
      res.nodes.map (fun cn => cn.node_id) = gC9w.nodes.map (fun n => n.node_id) ∧
      (res.nodes.map (fun cn => cn.node_id)).Nodup := by
  obtain ⟨res, hres⟩ : ∃ res, GraphConverter.convert gC9w none = Except.ok res := ⟨_, rfl⟩
  exact ⟨res, hres, convert_preserves_node_ids gC9w none res (by decide) hres⟩

/-- Claim C10 witness: the edge round-trip statement at the concrete
trace `gC10w`, instantiated at its edge `eC10`. -/
theorem convert_edges_verbatim_witness :
    ∃ res, GraphConverter.convert gC10w none = Except.ok res ∧
      res.edges = gC10w.edges.map GraphConverter.convertEdge ∧
      (GraphConverter.convertEdge eC10).tensor_shape = eC10.activation_shape ∧
      (GraphConverter.convertEdge eC10).parallel_input_port_ids = eC10.parallel_input_port_ids := by
  obtain ⟨res, hres⟩ : ∃ res, GraphConverter.convert gC10w none = Except.ok res := ⟨_, rfl⟩
  exact ⟨res, hres, (convert_edges_verbatim gC10w none res hres).1,
    ((convert_edges_verbatim gC10w none res hres).2 eC10).2.2.1,
    ((convert_edges_verbatim gC10w none res hres).2 eC10).2.2.2.2.2.2⟩

/-- Claim C6 witness: the spec's shape-mismatch chain — Dropout's
outgoing edge has shape `[1, 5]` against the incoming `[1, 10]`, and the
rewrite is rejected with the assertion failure. -/
theorem remove_nodes_rejects_unsafe_precondition_witness :
    remove_nodes_and_reconnect_graph gC6w [.PTDropoutMetatype] =
      .error (.assertionError unsafeRemovalMsg) :=
  remove_nodes_rejects_unsafe_precondition gC6w [.PTDropoutMetatype] nDropoutFx eInFx
    (by decide) (by decide) (by decide)
    (Or.inl ⟨eMidBad, by decide, by decide⟩)

/-- Claim C7 witness: the spec's literal removal scenario — after
removing Dropout the graph has the three nodes Input, Linear, Output and
the reconnecting edge `Input -> Linear` with shape `[1, 10]`, output port
from the original `Input -> Dropout` edge and input port from the
original `Dropout -> Linear` edge. -/
theorem remove_nodes_reconnects_validated_node_witness :
    remove_nodes_and_reconnect_graph gC7w [.PTDropoutMetatype] =
      .ok { nodes := [nInputFx, nLinearFx, nOutputFx]
            edges := [eOutFx,
              { from_node_id := 0, to_node_id := 2, tensor_shape := [1, 10]
                input_port_id := 0, output_port_id := 0, dtype := .float
                parallel_input_port_ids := [] }] } := by
  rw [remove_nodes_reconnects_validated_node gC7w [.PTDropoutMetatype] nDropoutFx eInFx
    (by decide) (by decide) (by decide)]
  rfl
